import Mathlib

/-!
Verification of the `CowType` codec (`heed-types/src/cow_type.rs`).

The codec converts fixed-layout values to and from raw byte buffers.  A
value of a plain fixed-layout type `T` is modelled by its byte
representation, a `List Nat` (each entry one byte); `size_of` and
`align_of` of `T` are gathered in a `Layout`.  A byte slice handed to the
decoder is modelled by a `ByteView`: its starting address together with
its bytes, since the decode algorithm inspects the address for alignment.
Rust panics are modelled by `Option.none`; fallible results by `Except`.
-/

namespace CowTypeSpec

/-- Layout data of a plain fixed-layout value type `T`:
`size_of::<T>()` and `align_of::<T>()`. -/
structure Layout where
  size : Nat
  align : Nat
deriving DecidableEq, Repr

/-- A borrowed byte slice `&[u8]` as the decoder sees it: its starting
address (used by the alignment check) and its contents. -/
structure ByteView where
  addr : Nat
  data : List Nat
deriving DecidableEq, Repr

/-- The error type of bytemuck casts (`bytemuck::PodCastError`). -/
inductive PodCastError where
  | TargetAlignmentGreaterAndInputNotAligned
  | SizeMismatch
  | OutputSliceWouldHaveSlop
  | AlignmentMismatch
deriving DecidableEq, Repr

/-- The `Cow<'_, T>` / `Cow<'_, [u8]>` result: either a borrow into
existing memory (no copy, no allocation) or an owned, freshly
materialized value.  Both carry the byte representation they point at. -/
inductive Cow where
  | borrowed : List Nat → Cow
  | owned : List Nat → Cow
deriving DecidableEq, Repr

/-- Dereferencing a `Cow`: the byte representation of the value it holds,
whether borrowed or owned. -/
def Cow.get : Cow → List Nat
  | .borrowed b => b
  | .owned b => b

/-- The raw byte representation of a value (`bytemuck::bytes_of`): a
value of a `NoUninit` type is readable as exactly its bytes, so in this
embedding it is the identity on the representation. -/
def bytes_of (item : List Nat) : List Nat :=
  item

/-- A zero-initialized value of layout `L` (`T::zeroed()` of
`bytemuck::Zeroable`): `size` zero bytes. -/
def zeroed (L : Layout) : List Nat :=
  List.replicate L.size 0

/-- Rust `dst.copy_from_slice(src)`: panics (modelled as `none`) when the
two slices have different lengths, otherwise `dst` becomes a copy of
`src`. -/
def copy_from_slice (dst src : List Nat) : Option (List Nat) :=
  if src.length = dst.length then some src else none

/-- Semantics of `bytemuck::try_from_bytes::<T>(s)`: fail with
`SizeMismatch` when the slice length differs from `size_of::<T>()`, then
fail with `TargetAlignmentGreaterAndInputNotAligned` when the slice's
address violates `align_of::<T>()`, otherwise reinterpret the slice in
place as a borrowed `&T`. -/
def try_from_bytes (L : Layout) (s : ByteView) : Except PodCastError (List Nat) :=
  if s.data.length ≠ L.size then
    .error .SizeMismatch
  else if s.addr % L.align ≠ 0 then
    .error .TargetAlignmentGreaterAndInputNotAligned
  else
    .ok s.data

/-- The encoder `CowType::<T>::bytes_encode` for `T: NoUninit`:
`Ok(Cow::Borrowed(bytes_of(item)))`. -/
def bytes_encode (item : List Nat) : Except PodCastError Cow :=
  .ok (.borrowed (bytes_of item))

/-- The decoder `CowType::<T>::bytes_decode` for
`T: AnyBitPattern + NoUninit`.  Try the in-place cast; on success return
the borrow; on an alignment failure zero-initialize an owned `T`, copy
the input bytes over it with `copy_from_slice` (whose potential panic is
the `Option` layer) and return it owned; surface every other cast error
to the caller. -/
def bytes_decode (L : Layout) (s : ByteView) : Option (Except PodCastError Cow) :=
  match try_from_bytes L s with
  | .ok item => some (.ok (.borrowed item))
  | .error .TargetAlignmentGreaterAndInputNotAligned =>
      match copy_from_slice (zeroed L) s.data with
      | some item => some (.ok (.owned item))
      | none => none
  | .error e => some (.error e)

/-- The marker type `PhantomData<T>`: zero-sized, holds no value of `T`. -/
structure PhantomData (T : Type) : Type where
  mk ::

/-- The codec marker `pub struct CowType<T>(PhantomData<T>)`: a stateless
tag parameterized by the value type, holding no runtime data. -/
structure CowType (T : Type) : Type where
  phantom : PhantomData T

/-- Modelled from the spec: the codec marker is declared "safely
shareable and transferable across concurrent threads of execution
unconditionally", which is "sound only because the marker never stores,
owns, or exposes a live instance of T — it is a zero-size, data-free
tag".  A type former is unconditionally Send/Sync in this sense when for
every parameter type `T` — shareable or not, even uninhabited — its value
exists and is unique, independently of any value of `T`. -/
def UnconditionalSendSync (F : Type → Type) : Prop :=
  ∀ T : Type, Nonempty (F T) ∧ ∀ a b : F T, a = b

end CowTypeSpec

namespace CowTypeSpec

/-- C1 — Round-trip: for every plain fixed-layout value `x` and every
byte-aligned offset, decoding the byte view produced by encoding `x`
succeeds, and the decoded `Cow` (borrowed or owned) dereferences to `x`'s
exact byte representation. -/
theorem roundTrip_plain_value (L : Layout) (x : List Nat) (addr : Nat)
    (hx : x.length = L.size) (ha : addr % L.align = 0) :
    ∃ enc dec, bytes_encode x = .ok enc ∧
      bytes_decode L ⟨addr, enc.get⟩ = some (.ok dec) ∧ dec.get = bytes_of x := by
  refine ⟨.borrowed (bytes_of x), .borrowed (bytes_of x), rfl, ?_, rfl⟩
  simp [bytes_decode, try_from_bytes, bytes_of, Cow.get, hx, ha]

/-- Witness for C1 at the concrete scenario of the spec: the 4-byte value
`0x11223344` in little-endian layout, decoded back from a 4-aligned
address. -/
theorem roundTrip_plain_value_witness :
    ([68, 51, 34, 17] : List Nat).length = (Layout.mk 4 4).size ∧
    8 % (Layout.mk 4 4).align = 0 ∧
    (∃ enc dec, bytes_encode [68, 51, 34, 17] = .ok enc ∧
      bytes_decode ⟨4, 4⟩ ⟨8, enc.get⟩ = some (.ok dec) ∧
      dec.get = bytes_of [68, 51, 34, 17]) :=
  ⟨by decide, by decide, roundTrip_plain_value ⟨4, 4⟩ [68, 51, 34, 17] 8 (by decide) (by decide)⟩

/-- C2 — Alignment absorption: a byte view of the right length at a
misaligned address decodes to `Ok` with an owned value, so an alignment
mismatch never reaches the caller as an error; and conversely the copy
fallback (an owned result) arises only in exactly this case: right
length, misaligned address. -/
theorem alignment_absorbed (L : Layout) (s : ByteView)
    (hlen : s.data.length = L.size) (hal : s.addr % L.align ≠ 0) :
    bytes_decode L s = some (.ok (.owned s.data)) ∧
    ∀ (M : Layout) (t : ByteView) (v : List Nat),
      bytes_decode M t = some (.ok (.owned v)) →
      t.data.length = M.size ∧ t.addr % M.align ≠ 0 := by
  constructor
  · simp [bytes_decode, try_from_bytes, copy_from_slice, zeroed, hlen, hal]
  · intro M t v h
    by_cases h1 : t.data.length = M.size
    · by_cases h2 : t.addr % M.align = 0
      · simp [bytes_decode, try_from_bytes, h1, h2] at h
      · exact ⟨h1, h2⟩
    · simp [bytes_decode, try_from_bytes, h1] at h

/-- Witness for C2: length-4 data at the misaligned address 1 against a
size-4, align-4 layout decodes to an owned copy of the input bytes. -/
theorem alignment_absorbed_witness :
    (ByteView.mk 1 [1, 2, 3, 4]).data.length = (Layout.mk 4 4).size ∧
    (ByteView.mk 1 [1, 2, 3, 4]).addr % (Layout.mk 4 4).align ≠ 0 ∧
    bytes_decode ⟨4, 4⟩ ⟨1, [1, 2, 3, 4]⟩ = some (.ok (.owned [1, 2, 3, 4])) :=
  ⟨by decide, by decide,
    (alignment_absorbed ⟨4, 4⟩ ⟨1, [1, 2, 3, 4]⟩ (by decide) (by decide)).1⟩

/-- C3 — Owned-fallback fidelity: whenever `bytes_decode` returns an
owned value (the copy-fallback branch), that value's byte representation
is bit-for-bit the input byte view. -/
theorem owned_fallback_fidelity (L : Layout) (s : ByteView) (v : List Nat)
    (h : bytes_decode L s = some (.ok (.owned v))) : v = s.data := by
  by_cases h1 : s.data.length = L.size
  · by_cases h2 : s.addr % L.align = 0
    · simp [bytes_decode, try_from_bytes, h1, h2] at h
    · simp [bytes_decode, try_from_bytes, copy_from_slice, zeroed, h1, h2] at h
      exact h.symm
  · simp [bytes_decode, try_from_bytes, h1] at h

/-- Witness for C3: the owned result of decoding misaligned bytes
`[1, 2, 3, 4]` is exactly `[1, 2, 3, 4]`. -/
theorem owned_fallback_fidelity_witness :
    bytes_decode ⟨4, 4⟩ ⟨1, [1, 2, 3, 4]⟩ = some (.ok (.owned [1, 2, 3, 4])) ∧
    ([1, 2, 3, 4] : List Nat) = (ByteView.mk 1 [1, 2, 3, 4]).data :=
  ⟨rfl, owned_fallback_fidelity ⟨4, 4⟩ ⟨1, [1, 2, 3, 4]⟩ [1, 2, 3, 4] rfl⟩

/-- C4 — Length enforcement: a byte view whose length differs from
`size_of T` decodes to a `SizeMismatch` error (no panic, no fallback). -/
theorem length_enforced (L : Layout) (s : ByteView)
    (h : s.data.length ≠ L.size) :
    bytes_decode L s = some (.error .SizeMismatch) := by
  simp [bytes_decode, try_from_bytes, h]

/-- Witness for C4 at the spec's concrete lengths `size - 1 = 3` and
`size + 1 = 5` against the size-4 layout. -/
theorem length_enforced_witness :
    (ByteView.mk 0 [1, 2, 3]).data.length ≠ (Layout.mk 4 4).size ∧
    bytes_decode ⟨4, 4⟩ ⟨0, [1, 2, 3]⟩ = some (.error .SizeMismatch) ∧
    (ByteView.mk 0 [1, 2, 3, 4, 5]).data.length ≠ (Layout.mk 4 4).size ∧
    bytes_decode ⟨4, 4⟩ ⟨0, [1, 2, 3, 4, 5]⟩ = some (.error .SizeMismatch) :=
  ⟨by decide, length_enforced ⟨4, 4⟩ ⟨0, [1, 2, 3]⟩ (by decide),
    by decide, length_enforced ⟨4, 4⟩ ⟨0, [1, 2, 3, 4, 5]⟩ (by decide)⟩

/-- C5 — Aligned zero-copy: a byte view of length exactly `size_of T`
at an address satisfying `align_of T` decodes to
`Ok (Cow.borrowed r)` where `r` is the input byte view's contents —
no copy is made. -/
theorem aligned_zero_copy (L : Layout) (s : ByteView)
    (hlen : s.data.length = L.size) (hal : s.addr % L.align = 0) :
    bytes_decode L s = some (.ok (.borrowed s.data)) := by
  simp [bytes_decode, try_from_bytes, hlen, hal]

/-- Witness for C5: 4 bytes at the 4-aligned address 8 decode borrowed. -/
theorem aligned_zero_copy_witness :
    (ByteView.mk 8 [17, 34, 51, 68]).data.length = (Layout.mk 4 4).size ∧
    (ByteView.mk 8 [17, 34, 51, 68]).addr % (Layout.mk 4 4).align = 0 ∧
    bytes_decode ⟨4, 4⟩ ⟨8, [17, 34, 51, 68]⟩ = some (.ok (.borrowed [17, 34, 51, 68])) :=
  ⟨by decide, by decide, aligned_zero_copy ⟨4, 4⟩ ⟨8, [17, 34, 51, 68]⟩ (by decide) (by decide)⟩

/-- C6 — Encode length: the byte view returned by `bytes_encode` on a
value of size `L.size` has length exactly `L.size`. -/
theorem encode_length (L : Layout) (x : List Nat) (hx : x.length = L.size) :
    ∃ b, bytes_encode x = .ok (.borrowed b) ∧ b.length = L.size :=
  ⟨bytes_of x, rfl, hx⟩

/-- Witness for C6 on a concrete 4-byte value. -/
theorem encode_length_witness :
    ([9, 8, 7, 6] : List Nat).length = (Layout.mk 4 4).size ∧
    ∃ b, bytes_encode [9, 8, 7, 6] = .ok (.borrowed b) ∧ b.length = (Layout.mk 4 4).size :=
  ⟨by decide, encode_length ⟨4, 4⟩ [9, 8, 7, 6] (by decide)⟩

/-- C7 — Encode totality and zero allocation: `bytes_encode` always
returns `Ok` with a borrowed view over the value's existing byte
representation, never an owned allocation and never an error. -/
theorem encode_total_borrowed (x : List Nat) :
    bytes_encode x = .ok (.borrowed (bytes_of x)) :=
  rfl

/-- C8 — Encode determinism: encoding two values whose byte
representations are equal yields byte views with identical content. -/
theorem encode_deterministic (x y : List Nat) (h : bytes_of x = bytes_of y) :
    ∃ cx cy, bytes_encode x = .ok cx ∧ bytes_encode y = .ok cy ∧ cx.get = cy.get :=
  ⟨.borrowed (bytes_of x), .borrowed (bytes_of y), rfl, rfl, h⟩

/-- Witness for C8 on a concrete value encoded twice. -/
theorem encode_deterministic_witness :
    bytes_of [1, 2, 3, 4] = bytes_of [1, 2, 3, 4] ∧
    ∃ cx cy, bytes_encode [1, 2, 3, 4] = .ok cx ∧
      bytes_encode [1, 2, 3, 4] = .ok cy ∧ cx.get = cy.get :=
  ⟨rfl, encode_deterministic [1, 2, 3, 4] [1, 2, 3, 4] rfl⟩

/-- C9 — Unconditional thread-shareability: for every type `T` — with no
condition on `T` whatsoever, even an uninhabited `T` — the marker
`CowType T` has a value, and a unique one, built with no value of `T`:
it never stores or owns an instance of `T`, which is what makes the
unconditional `Send`/`Sync` declaration sound. -/
theorem cowType_unconditional_send_sync : UnconditionalSendSync CowType :=
  fun _ => ⟨⟨⟨⟨⟩⟩⟩, fun a b => by cases a; cases b; rfl⟩

/-- C10 — Fallback copy cannot panic: on every input, `bytes_decode`
returns a result (`Ok` or `Err`) and never hits the `copy_from_slice`
panic, because the size check precedes the alignment check in
`try_from_bytes`, so the fallback branch always copies between slices of
equal length. -/
theorem decode_never_panics (L : Layout) (s : ByteView) :
    (bytes_decode L s).isSome = true := by
  by_cases h1 : s.data.length = L.size
  · by_cases h2 : s.addr % L.align = 0
    · simp [bytes_decode, try_from_bytes, h1, h2]
    · simp [bytes_decode, try_from_bytes, copy_from_slice, zeroed, h1, h2]
  · simp [bytes_decode, try_from_bytes, h1]

end CowTypeSpec
